import Mathlib

/-!
Shallow embedding of the order-fulfillment pipeline:
the shopping-cart coordinator (src/shopping-cart-service/main.go) and the
warehouse fulfillment consumer (worker-pool code in src/warehouse-service).
Go `int`/`int64` are modelled as `Int`; the external collaborators (payment
gateway HTTP exchange, RabbitMQ publish) are modelled by their observable
outcomes, passed in as parameters.
-/

/-- CartItem from main.go: one line of a cart (product_id, quantity). -/
structure CartItem where
  productID : String
  quantity : Int
deriving DecidableEq

/-- ShoppingCart from main.go. `createdAt` models the time.Time field as an
abstract tick; it plays no role in any operation. -/
structure ShoppingCart where
  cartID : String
  customerID : String
  items : List CartItem
  createdAt : Nat
deriving DecidableEq

/-- CCAResponse from main.go: body of the credit-card authorizer's reply. -/
structure CCAResponse where
  status : String
  transactionID : String
  message : String
deriving DecidableEq

/-- WarehouseOrder from main.go and the warehouse service: the fulfillment
message. -/
structure WarehouseOrder where
  orderID : String
  cartID : String
  customerID : String
  items : List CartItem
  timestamp : String
deriving DecidableEq

/-- CreateCartRequest from main.go. -/
structure CreateCartRequest where
  customerID : String
deriving DecidableEq

/-- AddItemRequest from main.go. -/
structure AddItemRequest where
  productID : String
  quantity : Int
deriving DecidableEq

/-- CheckoutRequest from main.go. -/
structure CheckoutRequest where
  creditCardNumber : String
deriving DecidableEq

/-- The global `carts sync.Map`, modelled as its lookup function: per-key
Load/Store/Delete on a sync.Map behave exactly as on this map. -/
def CartStore := String → Option ShoppingCart

/-- A store with no carts (process start). -/
def emptyStore : CartStore := fun _ => none

/-- carts.Load. -/
def storeLoad (s : CartStore) (id : String) : Option ShoppingCart := s id

/-- carts.Store. -/
def storeStore (s : CartStore) (id : String) (cart : ShoppingCart) : CartStore :=
  fun k => if k = id then some cart else s k

/-- carts.Delete. -/
def storeDelete (s : CartStore) (id : String) : CartStore :=
  fun k => if k = id then none else s k

/-- Gin binding for CreateCartRequest: `customer_id` is `required` (a string
is rejected when it is the zero value ""). -/
def validCreateCartRequest (r : CreateCartRequest) : Bool :=
  r.customerID != ""

/-- Gin binding for AddItemRequest: `product_id` required, `quantity`
required,min=1,max=10000. -/
def validAddItemRequest (r : AddItemRequest) : Bool :=
  r.productID != "" && decide (1 ≤ r.quantity) && decide (r.quantity ≤ 10000)

/-- Gin binding for CheckoutRequest: `credit_card_number` required. -/
def validCheckoutRequest (r : CheckoutRequest) : Bool :=
  r.creditCardNumber != ""

/-- Result of the createCart handler. A request body that fails JSON binding
is modelled as `none` or as a struct failing the binding tags. -/
inductive CreateCartResult where
  | created (cart : ShoppingCart)
  | invalidBody
deriving DecidableEq

/-- createCart handler from main.go: bind the body, build a cart with a fresh
id and empty items, store it. `freshID` stands for uuid.New().String() and
`now` for time.Now(). -/
def createCart (s : CartStore) (body : Option CreateCartRequest)
    (freshID : String) (now : Nat) : CreateCartResult × CartStore :=
  match body with
  | none => (.invalidBody, s)
  | some req =>
    if validCreateCartRequest req then
      let cart : ShoppingCart := ⟨freshID, req.customerID, [], now⟩
      (.created cart, storeStore s freshID cart)
    else (.invalidBody, s)

/-- Result of the getCart handler: 200 with the cart, or 404. -/
inductive GetCartResult where
  | ok (cart : ShoppingCart)
  | notFound
deriving DecidableEq

/-- getCart handler from main.go. -/
def getCart (s : CartStore) (cartID : String) : GetCartResult :=
  match storeLoad s cartID with
  | some cart => .ok cart
  | none => .notFound

/-- Result of the addItemToCart handler: 200 with the updated cart, 404, or
400 on a body that fails binding. -/
inductive AddItemResult where
  | ok (cart : ShoppingCart)
  | notFound
  | invalidBody
deriving DecidableEq

/-- The item-merge loop of addItemToCart (main.go lines 237-253): find the
first line with this product_id and add the quantity to it; if none matches,
append a new line at the end. -/
def addItemToItems (items : List CartItem) (pid : String) (q : Int) : List CartItem :=
  match items with
  | [] => [⟨pid, q⟩]
  | it :: rest =>
    if it.productID = pid then ⟨it.productID, it.quantity + q⟩ :: rest
    else it :: addItemToItems rest pid q

/-- addItemToCart handler from main.go: bind the body, load the cart, merge
the item, store the updated cart. -/
def addItemToCart (s : CartStore) (cartID : String) (body : Option AddItemRequest) :
    AddItemResult × CartStore :=
  match body with
  | none => (.invalidBody, s)
  | some req =>
    if validAddItemRequest req then
      match storeLoad s cartID with
      | none => (.notFound, s)
      | some cart =>
        let cart' := { cart with items := addItemToItems cart.items req.productID req.quantity }
        (.ok cart', storeStore s cartID cart')
    else (.invalidBody, s)

/-- calculateTotal from main.go: $10 per unit. The Go code sums in float64;
every addend is quantity × 10.0 with integer quantity, modelled in `Int`. -/
def calculateTotal (items : List CartItem) : Int :=
  items.foldl (fun total it => total + it.quantity * 10) 0

/-- Observable outcome of the single HTTP exchange authorizePayment performs
with the credit-card authorizer: the POST fails at the network level, or a
reply arrives with a status code and a body (`none` when the body does not
decode as CCAResponse; decoding happens before any status check). -/
inductive GatewayResult where
  | networkFailure
  | reply (statusCode : Nat) (body : Option CCAResponse)
deriving DecidableEq

/-- The distinct error values authorizePayment can return; each constructor
corresponds to one fmt.Errorf site in main.go lines 350-385. -/
inductive CCAError where
  | networkError
  | decodeError
  | invalidCardFormat (msg : String)
  | unexpectedStatus (code : Nat)
deriving DecidableEq

/-- authorizePayment from main.go: 402 returns the Declined body as a valid
outcome; 400 becomes the invalid-card-format error; any other non-200 status
becomes the unexpected-status error; 200 returns the body. -/
def authorizePayment (g : GatewayResult) : Except CCAError CCAResponse :=
  match g with
  | .networkFailure => .error .networkError
  | .reply status body =>
    match body with
    | none => .error .decodeError
    | some r =>
      if status = 402 then .ok r
      else if status = 400 then .error (.invalidCardFormat r.message)
      else if status ≠ 200 then .error (.unexpectedStatus status)
      else .ok r

/-- Environment of one checkout call: the gateway exchange outcome, whether
publishToWarehouse succeeds, the fresh uuid for the order, and the timestamp
string. -/
structure CheckoutEnv where
  gateway : GatewayResult
  publishOk : Bool
  freshOrderID : String
  now : String

/-- The response the checkout handler writes. -/
inductive CheckoutResponse where
  | invalidBody
  | notFound
  | emptyCart
  | authFailed (e : CCAError)
  | declined (msg : String)
  | publishFailed
  | success (orderID : String) (transactionID : String) (total : Int)
deriving DecidableEq

/-- What a checkout call leaves behind: the response, the cart store after
the call, and whether the payment gateway was contacted. -/
structure CheckoutOutcome where
  response : CheckoutResponse
  store : CartStore
  gatewayCalled : Bool

/-- checkout handler from main.go lines 260-347: bind body; load cart (404);
reject empty cart (400) before any gateway contact; authorize payment (error
→ 500); non-Authorized status → 402; publish (failure → 500, cart kept);
on publish success delete the cart and return order_id, transaction_id,
total. -/
def checkout (s : CartStore) (cartID : String) (body : Option CheckoutRequest)
    (env : CheckoutEnv) : CheckoutOutcome :=
  match body with
  | none => ⟨.invalidBody, s, false⟩
  | some req =>
    if validCheckoutRequest req then
      match storeLoad s cartID with
      | none => ⟨.notFound, s, false⟩
      | some cart =>
        if cart.items = [] then ⟨.emptyCart, s, false⟩
        else
          match authorizePayment env.gateway with
          | .error e => ⟨.authFailed e, s, true⟩
          | .ok ccaResp =>
            if ccaResp.status ≠ "Authorized" then ⟨.declined ccaResp.message, s, true⟩
            else if env.publishOk then
              ⟨.success env.freshOrderID ccaResp.transactionID (calculateTotal cart.items),
                storeDelete s cartID, true⟩
            else ⟨.publishFailed, s, true⟩
    else ⟨.invalidBody, s, false⟩

/-- HTTP status code each checkout response is written with in main.go. -/
def httpStatus : CheckoutResponse → Nat
  | .invalidBody => 400
  | .notFound => 404
  | .emptyCart => 400
  | .authFailed _ => 500
  | .declined _ => 402
  | .publishFailed => 500
  | .success _ _ _ => 200

/-- The warehouse service's aggregate counters: totalOrders (int64, updated
with atomic.AddInt64) and productQty (map protected by productMutex),
modelled as its lookup function with absent keys reading 0, exactly the
semantics of a Go map of int64. -/
structure Stats where
  totalOrders : Int
  productQty : String → Int

/-- Counter state at process start: zero orders, empty map. -/
def initStats : Stats := ⟨0, fun _ => 0⟩

/-- One Go map update `m[k] += v` (read with zero default, then write). -/
def mapIncr (m : String → Int) (k : String) (v : Int) : String → Int :=
  fun p => if p = k then m k + v else m p

/-- processOrder from the warehouse service: increment totalOrders once,
then for each line item add its quantity into productQty under the mutex. -/
def processOrder (st : Stats) (order : WarehouseOrder) : Stats :=
  { totalOrders := st.totalOrders + 1
    productQty := order.items.foldl (fun m it => mapIncr m it.productID it.quantity) st.productQty }

/-- JSON values, as far as the fulfillment message schema reaches. Numeric
literals are modelled as integers; a non-integer literal would fail to
decode into the int field exactly as a wrongly-typed value does. -/
inductive JValue where
  | null
  | bool (b : Bool)
  | num (n : Int)
  | str (s : String)
  | arr (elems : List JValue)
  | obj (fields : List (String × JValue))

/-- Go encoding/json decoding of a JSON value into a string field: null
leaves the zero value, a string is taken, anything else is a type error. -/
def decodeStringField (v : JValue) : Except String String :=
  match v with
  | .null => .ok ""
  | .str s => .ok s
  | _ => .error "cannot unmarshal value into Go string field"

/-- Go encoding/json decoding into an int field. -/
def decodeIntField (v : JValue) : Except String Int :=
  match v with
  | .null => .ok 0
  | .num n => .ok n
  | _ => .error "cannot unmarshal value into Go int field"

/-- Decoding one JSON object field into a CartItem: known keys are decoded
by type, unknown keys are ignored. -/
def applyItemField (it : CartItem) (kv : String × JValue) : Except String CartItem :=
  if kv.1 = "product_id" then
    (decodeStringField kv.2).map (fun pid => { it with productID := pid })
  else if kv.1 = "quantity" then
    (decodeIntField kv.2).map (fun q => { it with quantity := q })
  else .ok it

/-- Go encoding/json decoding of one element of the items array. -/
def decodeCartItem (v : JValue) : Except String CartItem :=
  match v with
  | .null => .ok ⟨"", 0⟩
  | .obj fields => fields.foldlM applyItemField ⟨"", 0⟩
  | _ => .error "cannot unmarshal value into CartItem"

/-- Go encoding/json decoding of the items field. -/
def decodeItems (v : JValue) : Except String (List CartItem) :=
  match v with
  | .null => .ok []
  | .arr elems => elems.mapM decodeCartItem
  | _ => .error "cannot unmarshal value into items slice"

/-- The zero value `var order WarehouseOrder` that json.Unmarshal fills. -/
def zeroOrder : WarehouseOrder := ⟨"", "", "", [], ""⟩

/-- Decoding one JSON object field into the order: the five tagged fields
are decoded by type, unknown keys are ignored, later duplicates win. -/
def applyOrderField (o : WarehouseOrder) (kv : String × JValue) :
    Except String WarehouseOrder :=
  if kv.1 = "order_id" then
    (decodeStringField kv.2).map (fun x => { o with orderID := x })
  else if kv.1 = "cart_id" then
    (decodeStringField kv.2).map (fun x => { o with cartID := x })
  else if kv.1 = "customer_id" then
    (decodeStringField kv.2).map (fun x => { o with customerID := x })
  else if kv.1 = "items" then
    (decodeItems kv.2).map (fun x => { o with items := x })
  else if kv.1 = "timestamp" then
    (decodeStringField kv.2).map (fun x => { o with timestamp := x })
  else .ok o

/-- json.Unmarshal of a message body into WarehouseOrder: null succeeds and
leaves the zero value, an object decodes field by field with no semantic
validation of any field, any other top-level value is a type error. -/
def decodeWarehouseOrder (v : JValue) : Except String WarehouseOrder :=
  match v with
  | .null => .ok zeroOrder
  | .obj fields => fields.foldlM applyOrderField zeroOrder
  | _ => .error "cannot unmarshal value into WarehouseOrder"

/-- A delivery body: either not syntactically valid JSON at all, or a JSON
value. -/
inductive MsgBody where
  | invalidJSON
  | json (v : JValue)

/-- json.Unmarshal on the raw body. -/
def deserializeBody (b : MsgBody) : Except String WarehouseOrder :=
  match b with
  | .invalidJSON => .error "invalid character in message body"
  | .json v => decodeWarehouseOrder v

/-- How a worker disposes of one delivery: msg.Ack(false), or
msg.Nack(false, false) — rejected with requeue=false, so the broker drops
it and this consumer never sees it again. -/
inductive MsgOutcome where
  | acked
  | rejectedNoRequeue
deriving DecidableEq

/-- One iteration of the processMessages worker loop: unmarshal; on failure
Nack without requeue and leave the counters alone; on success run
processOrder and Ack. -/
def handleMessage (st : Stats) (b : MsgBody) : Stats × MsgOutcome :=
  match deserializeBody b with
  | .error _ => (st, .rejectedNoRequeue)
  | .ok order => (processOrder st order, .acked)

/-- The individually-atomic updates a worker performs on the shared
counters while processing one order: one atomic.AddInt64 on totalOrders,
and one mutex-guarded map update per line item. Concurrent workers
interleave at exactly this granularity. -/
inductive WAction where
  | incrTotal
  | incrProduct (pid : String) (qty : Int)
deriving DecidableEq

/-- Effect of one atomic update on the counters. -/
def applyWAction (st : Stats) (a : WAction) : Stats :=
  match a with
  | .incrTotal => { st with totalOrders := st.totalOrders + 1 }
  | .incrProduct pid q => { st with productQty := mapIncr st.productQty pid q }

/-- Effect of a schedule (one linearization of the atomic updates). -/
def runWActions (st : Stats) (acts : List WAction) : Stats :=
  acts.foldl applyWAction st

/-- The atomic updates processOrder performs for one order, in program
order. -/
def actionsOfOrder (o : WarehouseOrder) : List WAction :=
  .incrTotal :: o.items.map (fun it => .incrProduct it.productID it.quantity)

/-- All atomic updates of a batch of orders, in one reference order; a
concurrent execution performs some permutation of this list. -/
def allActions : List WarehouseOrder → List WAction
  | [] => []
  | o :: rest => actionsOfOrder o ++ allActions rest

/-- Contribution of one atomic update to totalOrders. -/
def totContrib (a : WAction) : Int :=
  match a with
  | .incrTotal => 1
  | .incrProduct _ _ => 0

/-- Contribution of one atomic update to productQty at a given key. -/
def qtyContrib (pid : String) (a : WAction) : Int :=
  match a with
  | .incrTotal => 0
  | .incrProduct p q => if p = pid then q else 0

/-- Quantity of one product inside one order message. -/
def orderQty (o : WarehouseOrder) (pid : String) : Int :=
  (o.items.map (fun it => if it.productID = pid then it.quantity else 0)).sum

/-- Arithmetic sum of one product's quantities across a batch of orders. -/
def totalQty (orders : List WarehouseOrder) (pid : String) : Int :=
  (orders.map (fun o => orderQty o pid)).sum

/-- First-match quantity of a product in a cart's line list (0 when the
product is absent), the view of the cart the merge loop acts on. -/
def lineQty (items : List CartItem) (pid : String) : Int :=
  match items with
  | [] => 0
  | it :: rest => if it.productID = pid then it.quantity else lineQty rest pid

/-- The product_id column of a cart's lines. -/
def cartKeys (items : List CartItem) : List String :=
  items.map (fun it => it.productID)

/-- The cart invariant of the data model: product_id unique per cart and
every quantity at least 1. -/
def CartInvariant (cart : ShoppingCart) : Prop :=
  (cartKeys cart.items).Nodup ∧ ∀ it ∈ cart.items, 1 ≤ it.quantity

/-- The store operations that create and mutate carts: one createCart call
or one addItemToCart call, with their request bodies. -/
inductive CartOp where
  | create (body : Option CreateCartRequest) (freshID : String) (now : Nat)
  | addItem (cartID : String) (body : Option AddItemRequest)

/-- Store after one operation. -/
def applyOp (s : CartStore) (op : CartOp) : CartStore :=
  match op with
  | .create body freshID now => (createCart s body freshID now).2
  | .addItem cartID body => (addItemToCart s cartID body).2

/-- Store reached from process start by a sequence of operations. -/
def runOps (ops : List CartOp) : CartStore :=
  ops.foldl applyOp emptyStore

/-- Store after a sequence of AddItem calls on one cart and one product,
with the given quantities. -/
def runAdds (s : CartStore) (cartID pid : String) : List Int → CartStore
  | [] => s
  | q :: rest => runAdds (addItemToCart s cartID (some ⟨pid, q⟩)).2 cartID pid rest

/-! ### Basic store lemmas -/

/-- Loading the key just stored returns the stored cart. -/
theorem storeLoad_store_self (s : CartStore) (id : String) (cart : ShoppingCart) :
    storeLoad (storeStore s id cart) id = some cart := by
  simp [storeLoad, storeStore]

/-- Loading another key after a store is unchanged. -/
theorem storeLoad_store_other (s : CartStore) (id k : String) (cart : ShoppingCart)
    (h : k ≠ id) : storeLoad (storeStore s id cart) k = storeLoad s k := by
  simp [storeLoad, storeStore, h]

/-- Loading the key just deleted returns nothing. -/
theorem storeLoad_delete_self (s : CartStore) (id : String) :
    storeLoad (storeDelete s id) id = none := by
  simp [storeLoad, storeDelete]

/-- C4: For every checkout call on an existing cart with zero items, the
result is EmptyCart (HTTP 400) and the payment gateway is never contacted
on that call. -/
theorem checkout_emptyCart_C4 (s : CartStore) (cartID : String) (req : CheckoutRequest)
    (env : CheckoutEnv) (cart : ShoppingCart)
    (hreq : validCheckoutRequest req = true)
    (hload : storeLoad s cartID = some cart)
    (hempty : cart.items = []) :
    (checkout s cartID (some req) env).response = .emptyCart ∧
    httpStatus (checkout s cartID (some req) env).response = 400 ∧
    (checkout s cartID (some req) env).gatewayCalled = false := by
  simp [checkout, hreq, hload, hempty, httpStatus]

theorem checkout_emptyCart_C4_witness :
    (checkout (storeStore emptyStore "c1" ⟨"c1", "alice", [], 0⟩) "c1"
        (some ⟨"1111-2222-3333-4444"⟩)
        ⟨.reply 200 (some ⟨"Authorized", "tx1", "ok"⟩), true, "o1", "t0"⟩).response =
      .emptyCart ∧
    httpStatus (checkout (storeStore emptyStore "c1" ⟨"c1", "alice", [], 0⟩) "c1"
        (some ⟨"1111-2222-3333-4444"⟩)
        ⟨.reply 200 (some ⟨"Authorized", "tx1", "ok"⟩), true, "o1", "t0"⟩).response = 400 ∧
    (checkout (storeStore emptyStore "c1" ⟨"c1", "alice", [], 0⟩) "c1"
        (some ⟨"1111-2222-3333-4444"⟩)
        ⟨.reply 200 (some ⟨"Authorized", "tx1", "ok"⟩), true, "o1", "t0"⟩).gatewayCalled =
      false :=
  checkout_emptyCart_C4 (storeStore emptyStore "c1" ⟨"c1", "alice", [], 0⟩) "c1"
    ⟨"1111-2222-3333-4444"⟩
    ⟨.reply 200 (some ⟨"Authorized", "tx1", "ok"⟩), true, "o1", "t0"⟩
    ⟨"c1", "alice", [], 0⟩ (by decide) (by decide) rfl

/-- C8: For every fulfillment message whose body fails to deserialize, the
worker never acknowledges it as successful and rejects it without requeue
(msg.Nack with requeue=false, so this consumer instance never sees it
again), and the aggregate counters are not updated for it. -/
theorem poison_message_C8 (st : Stats) (b : MsgBody) (e : String)
    (herr : deserializeBody b = .error e) :
    handleMessage st b = (st, .rejectedNoRequeue) ∧
    (handleMessage st b).2 ≠ .acked := by
  constructor
  · simp [handleMessage, herr]
  · simp [handleMessage, herr]

theorem poison_message_C8_witness :
    handleMessage initStats .invalidJSON = (initStats, .rejectedNoRequeue) ∧
    (handleMessage initStats .invalidJSON).2 ≠ .acked :=
  poison_message_C8 initStats .invalidJSON "invalid character in message body" rfl

/-- C9: Every body that is syntactically valid JSON for the order shape —
including null and the empty object, which leave every field at its zero
value — is counted: total_orders is incremented by exactly 1 and the
message is acknowledged, with no validation of any field beyond JSON
decoding. -/
theorem lenient_decode_counts_C9 :
    decodeWarehouseOrder .null = .ok zeroOrder ∧
    decodeWarehouseOrder (.obj []) = .ok zeroOrder ∧
    ∀ (st : Stats) (v : JValue) (o : WarehouseOrder),
      decodeWarehouseOrder v = .ok o →
      handleMessage st (.json v) = (processOrder st o, .acked) ∧
      (processOrder st o).totalOrders = st.totalOrders + 1 := by
  refine ⟨rfl, rfl, ?_⟩
  intro st v o hdec
  constructor
  · simp [handleMessage, deserializeBody, hdec]
  · rfl

theorem lenient_decode_counts_C9_witness :
    handleMessage initStats (.json .null) = (processOrder initStats zeroOrder, .acked) ∧
    (processOrder initStats zeroOrder).totalOrders = 1 :=
  ⟨(lenient_decode_counts_C9.2.2 initStats .null zeroOrder rfl).1,
   (lenient_decode_counts_C9.2.2 initStats .null zeroOrder rfl).2⟩

/-- C7 counterexample: with an existing non-empty cart and the gateway
replying 400 (invalid card format), checkout surfaces the result as HTTP
500, not a 4xx response, refuting the claim that the ClientError is
surfaced as 4xx. -/
theorem gateway400_is_500_counterexample :
    (checkout (storeStore emptyStore "c7" ⟨"c7", "bob", [⟨"P1", 1⟩], 0⟩) "c7"
        (some ⟨"bad-card"⟩)
        ⟨.reply 400 (some ⟨"", "", "Format must be XXXX-XXXX-XXXX-XXXX"⟩), true, "o7",
          "t7"⟩).response =
      .authFailed (.invalidCardFormat "Format must be XXXX-XXXX-XXXX-XXXX") ∧
    httpStatus (checkout (storeStore emptyStore "c7" ⟨"c7", "bob", [⟨"P1", 1⟩], 0⟩) "c7"
        (some ⟨"bad-card"⟩)
        ⟨.reply 400 (some ⟨"", "", "Format must be XXXX-XXXX-XXXX-XXXX"⟩), true, "o7",
          "t7"⟩).response = 500 ∧
    ¬ httpStatus (checkout (storeStore emptyStore "c7" ⟨"c7", "bob", [⟨"P1", 1⟩], 0⟩) "c7"
        (some ⟨"bad-card"⟩)
        ⟨.reply 400 (some ⟨"", "", "Format must be XXXX-XXXX-XXXX-XXXX"⟩), true, "o7",
          "t7"⟩).response < 500 := by
  decide

/-- C7 amended: when the gateway responds 400, authorizePayment returns the
distinct invalid-card-format error (no charge, a failure path separate from
the other-status and network errors), but checkout surfaces every
authorizePayment error — this validation error included — as HTTP 500. -/
theorem gateway400_maps_to_500_C7 (s : CartStore) (cartID : String)
    (req : CheckoutRequest) (env : CheckoutEnv) (cart : ShoppingCart) (r : CCAResponse)
    (hreq : validCheckoutRequest req = true)
    (hload : storeLoad s cartID = some cart)
    (hne : cart.items ≠ [])
    (hgw : env.gateway = .reply 400 (some r)) :
    authorizePayment env.gateway = .error (.invalidCardFormat r.message) ∧
    (∀ code, CCAError.invalidCardFormat r.message ≠ .unexpectedStatus code) ∧
    CCAError.invalidCardFormat r.message ≠ .networkError ∧
    (checkout s cartID (some req) env).response =
      .authFailed (.invalidCardFormat r.message) ∧
    httpStatus (checkout s cartID (some req) env).response = 500 := by
  have hauth : authorizePayment env.gateway = .error (.invalidCardFormat r.message) := by
    simp [hgw, authorizePayment]
  refine ⟨hauth, fun code => by simp, by simp, ?_, ?_⟩
  · simp [checkout, hreq, hload, hne, hauth]
  · simp [checkout, hreq, hload, hne, hauth, httpStatus]

theorem gateway400_maps_to_500_C7_witness :
    authorizePayment (.reply 400 (some ⟨"", "", "bad format"⟩)) =
      .error (.invalidCardFormat "bad format") ∧
    (∀ code, CCAError.invalidCardFormat "bad format" ≠ .unexpectedStatus code) ∧
    CCAError.invalidCardFormat "bad format" ≠ .networkError ∧
    (checkout (storeStore emptyStore "c7" ⟨"c7", "bob", [⟨"P1", 1⟩], 0⟩) "c7"
        (some ⟨"bad-card"⟩)
        ⟨.reply 400 (some ⟨"", "", "bad format"⟩), true, "o7", "t7"⟩).response =
      .authFailed (.invalidCardFormat "bad format") ∧
    httpStatus (checkout (storeStore emptyStore "c7" ⟨"c7", "bob", [⟨"P1", 1⟩], 0⟩) "c7"
        (some ⟨"bad-card"⟩)
        ⟨.reply 400 (some ⟨"", "", "bad format"⟩), true, "o7", "t7"⟩).response = 500 :=
  gateway400_maps_to_500_C7 (storeStore emptyStore "c7" ⟨"c7", "bob", [⟨"P1", 1⟩], 0⟩)
    "c7" ⟨"bad-card"⟩ ⟨.reply 400 (some ⟨"", "", "bad format"⟩), true, "o7", "t7"⟩
    ⟨"c7", "bob", [⟨"P1", 1⟩], 0⟩ ⟨"", "", "bad format"⟩
    (by decide) rfl (by decide) rfl

/-- C1: For every checkout call in which the cart id exists, the cart is
non-empty, the payment gateway authorizes (200 with status Authorized), and
the publish succeeds, the cart is deleted from the store — a subsequent
GetCart on that id returns NotFound — and the success response carries the
fresh order_id, the gateway's transaction_id, and the computed total. -/
theorem checkout_success_C1 (s : CartStore) (cartID : String) (req : CheckoutRequest)
    (env : CheckoutEnv) (cart : ShoppingCart) (r : CCAResponse)
    (hreq : validCheckoutRequest req = true)
    (hload : storeLoad s cartID = some cart)
    (hne : cart.items ≠ [])
    (hgw : env.gateway = .reply 200 (some r))
    (hauth : r.status = "Authorized")
    (hpub : env.publishOk = true) :
    (checkout s cartID (some req) env).response =
      .success env.freshOrderID r.transactionID (calculateTotal cart.items) ∧
    getCart (checkout s cartID (some req) env).store cartID = .notFound := by
  have hok : authorizePayment env.gateway = .ok r := by
    simp [hgw, authorizePayment]
  have hresp : checkout s cartID (some req) env =
      ⟨.success env.freshOrderID r.transactionID (calculateTotal cart.items),
        storeDelete s cartID, true⟩ := by
    simp [checkout, hreq, hload, hne, hok, hauth, hpub]
  rw [hresp]
  exact ⟨rfl, by simp [getCart, storeLoad_delete_self]⟩

theorem checkout_success_C1_witness :
    (checkout (storeStore emptyStore "c1" ⟨"c1", "alice", [⟨"P1", 2⟩], 0⟩) "c1"
        (some ⟨"1111-2222-3333-4444"⟩)
        ⟨.reply 200 (some ⟨"Authorized", "tx1", "ok"⟩), true, "o1", "t0"⟩).response =
      .success "o1" "tx1" 20 ∧
    getCart (checkout (storeStore emptyStore "c1" ⟨"c1", "alice", [⟨"P1", 2⟩], 0⟩) "c1"
        (some ⟨"1111-2222-3333-4444"⟩)
        ⟨.reply 200 (some ⟨"Authorized", "tx1", "ok"⟩), true, "o1", "t0"⟩).store "c1" =
      .notFound :=
  checkout_success_C1 (storeStore emptyStore "c1" ⟨"c1", "alice", [⟨"P1", 2⟩], 0⟩) "c1"
    ⟨"1111-2222-3333-4444"⟩
    ⟨.reply 200 (some ⟨"Authorized", "tx1", "ok"⟩), true, "o1", "t0"⟩
    ⟨"c1", "alice", [⟨"P1", 2⟩], 0⟩ ⟨"Authorized", "tx1", "ok"⟩
    (by decide) rfl (by decide) rfl rfl rfl

/-- Checkout mutates the store only on the success path: either the store
comes back untouched, or the response is success and the store is the old
store with the cart deleted. -/
theorem checkout_store_cases (s : CartStore) (cartID : String)
    (body : Option CheckoutRequest) (env : CheckoutEnv) :
    (checkout s cartID body env).store = s ∨
    ((∃ oid tid total,
        (checkout s cartID body env).response = .success oid tid total) ∧
      (checkout s cartID body env).store = storeDelete s cartID) := by
  unfold checkout
  rcases body with _ | req
  · exact Or.inl rfl
  · by_cases hreq : validCheckoutRequest req = true
    · simp only [hreq, if_true]
      cases hload : storeLoad s cartID with
      | none => exact Or.inl rfl
      | some cart =>
        by_cases hempty : cart.items = []
        · simp [hempty]
        · simp only [hempty, if_false]
          cases hauth : authorizePayment env.gateway with
          | error e => exact Or.inl rfl
          | ok r =>
            by_cases hst : r.status ≠ "Authorized"
            · simp [hst]
            · cases hpub : env.publishOk with
              | false => simp [hst, hpub]
              | true =>
                right
                refine ⟨⟨env.freshOrderID, r.transactionID, calculateTotal cart.items, ?_⟩, ?_⟩
                · simp [hst, hpub]
                · simp [hst, hpub]
    · simp [hreq]

/-- C2: For every checkout call that ends in Declined (402) or in
UpstreamFailure because the publish fails after authorization, the cart
store is unchanged, and the cart remains retrievable under the same id with
exactly the items it had when the checkout began. -/
theorem checkout_failure_preserves_cart_C2 (s : CartStore) (cartID : String)
    (body : Option CheckoutRequest) (env : CheckoutEnv) (cart : ShoppingCart)
    (hload : storeLoad s cartID = some cart)
    (hout : (∃ m, (checkout s cartID body env).response = .declined m) ∨
            (checkout s cartID body env).response = .publishFailed) :
    (checkout s cartID body env).store = s ∧
    getCart (checkout s cartID body env).store cartID = .ok cart := by
  have hstore : (checkout s cartID body env).store = s := by
    rcases checkout_store_cases s cartID body env with h | ⟨⟨oid, tid, total, hsucc⟩, _⟩
    · exact h
    · rcases hout with ⟨m, hd⟩ | hp
      · rw [hsucc] at hd; cases hd
      · rw [hsucc] at hp; cases hp
  exact ⟨hstore, by simp [getCart, hstore, hload]⟩

theorem checkout_failure_preserves_cart_C2_witness :
    (checkout (storeStore emptyStore "c2" ⟨"c2", "alice", [⟨"P1", 5⟩], 0⟩) "c2"
        (some ⟨"1111-2222-3333-4444"⟩)
        ⟨.reply 402 (some ⟨"Declined", "", "Card declined by issuer"⟩), true, "o2",
          "t2"⟩).store =
      storeStore emptyStore "c2" ⟨"c2", "alice", [⟨"P1", 5⟩], 0⟩ ∧
    getCart (checkout (storeStore emptyStore "c2" ⟨"c2", "alice", [⟨"P1", 5⟩], 0⟩) "c2"
        (some ⟨"1111-2222-3333-4444"⟩)
        ⟨.reply 402 (some ⟨"Declined", "", "Card declined by issuer"⟩), true, "o2",
          "t2"⟩).store "c2" =
      .ok ⟨"c2", "alice", [⟨"P1", 5⟩], 0⟩ :=
  checkout_failure_preserves_cart_C2
    (storeStore emptyStore "c2" ⟨"c2", "alice", [⟨"P1", 5⟩], 0⟩) "c2"
    (some ⟨"1111-2222-3333-4444"⟩)
    ⟨.reply 402 (some ⟨"Declined", "", "Card declined by issuer"⟩), true, "o2", "t2"⟩
    ⟨"c2", "alice", [⟨"P1", 5⟩], 0⟩ rfl
    (Or.inl ⟨"Card declined by issuer", by decide⟩)

/-! ### Add-item merge lemmas -/

/-- A merge on a product absent from every line leaves the lines alone. -/
theorem map_merge_id (rest : List CartItem) (pid : String) (q : Int)
    (hnot : pid ∉ cartKeys rest) :
    rest.map (fun it =>
        if it.productID = pid then (⟨it.productID, it.quantity + q⟩ : CartItem) else it) =
      rest := by
  induction rest with
  | nil => rfl
  | cons it rest ih =>
    simp only [cartKeys, List.map_cons, List.mem_cons] at hnot
    push_neg at hnot
    simp only [List.map_cons]
    rw [if_neg (by exact fun h => hnot.1 h.symm)]
    rw [ih (by simpa [cartKeys] using hnot.2)]

/-- When the product is absent, the merge loop appends one new line. -/
theorem addItemToItems_of_not_mem (items : List CartItem) (pid : String) (q : Int)
    (hnot : pid ∉ cartKeys items) :
    addItemToItems items pid q = items ++ [⟨pid, q⟩] := by
  induction items with
  | nil => rfl
  | cons it rest ih =>
    simp only [cartKeys, List.map_cons, List.mem_cons] at hnot
    push_neg at hnot
    simp only [addItemToItems]
    rw [if_neg (by exact fun h => hnot.1 h.symm)]
    rw [ih (by simpa [cartKeys] using hnot.2)]
    rfl

/-- When the product is present and product_ids are distinct, the merge loop
rewrites exactly the matching line, adding the requested quantity to it. -/
theorem addItemToItems_of_mem (items : List CartItem) (pid : String) (q : Int)
    (hnd : (cartKeys items).Nodup) (hmem : pid ∈ cartKeys items) :
    addItemToItems items pid q =
      items.map (fun it =>
        if it.productID = pid then (⟨it.productID, it.quantity + q⟩ : CartItem) else it) := by
  induction items with
  | nil => cases hmem
  | cons it rest ih =>
    simp only [cartKeys, List.map_cons, List.nodup_cons] at hnd
    simp only [addItemToItems, List.map_cons]
    by_cases h : it.productID = pid
    · rw [if_pos h, if_pos h]
      rw [map_merge_id rest pid q (h ▸ hnd.1)]
    · rw [if_neg h, if_neg h]
      have hmem' : pid ∈ cartKeys rest := by
        simp only [cartKeys, List.map_cons, List.mem_cons] at hmem
        rcases hmem with h1 | h2
        · exact absurd h1.symm h
        · exact h2
      rw [ih hnd.2 hmem']

/-- C5: For every cart with pairwise-distinct product_ids (the data-model
invariant, proved for every reachable cart) and every accepted AddItem
call, when the requested product_id already appears the matching line's
quantity grows by exactly the requested quantity with no duplicate line
created, and when it is absent exactly one new line with the requested
quantity is appended; the updated cart is stored under the same id. -/
theorem addItem_merge_C5 (s : CartStore) (cartID : String) (cart : ShoppingCart)
    (req : AddItemRequest)
    (hload : storeLoad s cartID = some cart)
    (hreq : validAddItemRequest req = true)
    (hnd : (cartKeys cart.items).Nodup) :
    ∃ cart',
      (addItemToCart s cartID (some req)).1 = .ok cart' ∧
      storeLoad (addItemToCart s cartID (some req)).2 cartID = some cart' ∧
      (req.productID ∈ cartKeys cart.items →
        cart'.items = cart.items.map (fun it =>
          if it.productID = req.productID then
            (⟨it.productID, it.quantity + req.quantity⟩ : CartItem)
          else it)) ∧
      (req.productID ∉ cartKeys cart.items →
        cart'.items = cart.items ++ [⟨req.productID, req.quantity⟩]) := by
  refine ⟨{ cart with items := addItemToItems cart.items req.productID req.quantity },
    ?_, ?_, ?_, ?_⟩
  · simp [addItemToCart, hreq, hload]
  · simp [addItemToCart, hreq, hload, storeLoad_store_self]
  · intro hmem
    exact addItemToItems_of_mem cart.items req.productID req.quantity hnd hmem
  · intro hnot
    exact addItemToItems_of_not_mem cart.items req.productID req.quantity hnot

theorem addItem_merge_C5_witness :
    ∃ cart',
      (addItemToCart (storeStore emptyStore "c5" ⟨"c5", "alice", [⟨"P1", 2⟩], 0⟩) "c5"
          (some ⟨"P1", 3⟩)).1 = .ok cart' ∧
      storeLoad (addItemToCart (storeStore emptyStore "c5" ⟨"c5", "alice", [⟨"P1", 2⟩], 0⟩)
          "c5" (some ⟨"P1", 3⟩)).2 "c5" = some cart' ∧
      ("P1" ∈ cartKeys [⟨"P1", 2⟩] →
        cart'.items = ([⟨"P1", 2⟩] : List CartItem).map (fun it =>
          if it.productID = "P1" then (⟨it.productID, it.quantity + 3⟩ : CartItem) else it)) ∧
      ("P1" ∉ cartKeys [⟨"P1", 2⟩] →
        cart'.items = [⟨"P1", 2⟩] ++ [⟨"P1", 3⟩]) :=
  addItem_merge_C5 (storeStore emptyStore "c5" ⟨"c5", "alice", [⟨"P1", 2⟩], 0⟩) "c5"
    ⟨"c5", "alice", [⟨"P1", 2⟩], 0⟩ ⟨"P1", 3⟩ rfl (by decide) (by decide)

/-! ### Cart invariant -/

/-- Keys after a merge: unchanged when the product was present (given
distinct keys), extended by the new product when absent. -/
theorem cartKeys_addItemToItems (items : List CartItem) (pid : String) (q : Int)
    (hnd : (cartKeys items).Nodup) :
    cartKeys (addItemToItems items pid q) =
      if pid ∈ cartKeys items then cartKeys items else cartKeys items ++ [pid] := by
  by_cases hmem : pid ∈ cartKeys items
  · rw [if_pos hmem, addItemToItems_of_mem items pid q hnd hmem]
    simp only [cartKeys, List.map_map]
    apply List.map_congr_left
    intro it _
    by_cases h : it.productID = pid <;> simp [h]
  · rw [if_neg hmem, addItemToItems_of_not_mem items pid q hmem]
    simp [cartKeys]

/-- Quantities after a merge stay at least 1 when they all were and the
added quantity is at least 1. -/
theorem addItemToItems_quantity_ge_one (items : List CartItem) (pid : String) (q : Int)
    (hq : 1 ≤ q) (hall : ∀ it ∈ items, 1 ≤ it.quantity) :
    ∀ it ∈ addItemToItems items pid q, 1 ≤ it.quantity := by
  induction items with
  | nil =>
    intro it hit
    simp only [addItemToItems, List.mem_singleton] at hit
    subst hit
    exact hq
  | cons hd rest ih =>
    intro it hit
    simp only [addItemToItems] at hit
    by_cases h : hd.productID = pid
    · rw [if_pos h] at hit
      rcases List.mem_cons.mp hit with heq | hmem
      · subst heq
        have := hall hd (List.mem_cons_self hd rest)
        show (1 : Int) ≤ hd.quantity + q
        omega
      · exact hall it (List.mem_cons_of_mem hd hmem)
    · rw [if_neg h] at hit
      rcases List.mem_cons.mp hit with heq | hmem
      · subst heq
        exact hall it (List.mem_cons_self it rest)
      · exact ih (fun x hx => hall x (List.mem_cons_of_mem hd hx)) it hmem

/-- Every cart in a store satisfies the data-model invariant. -/
def StoreInv (s : CartStore) : Prop :=
  ∀ id cart, storeLoad s id = some cart → CartInvariant cart

/-- One createCart or addItemToCart call preserves the store invariant. -/
theorem applyOp_preserves_inv (s : CartStore) (op : CartOp) (h : StoreInv s) :
    StoreInv (applyOp s op) := by
  cases op with
  | create body freshID now =>
    rcases body with _ | req
    · exact h
    · by_cases hv : validCreateCartRequest req = true
      · intro id cart hload
        simp only [applyOp, createCart, hv, if_true] at hload
        by_cases hid : id = freshID
        · subst hid
          rw [storeLoad_store_self] at hload
          cases hload
          exact ⟨List.nodup_nil, by intro it hit; cases hit⟩
        · rw [storeLoad_store_other s freshID id _ hid] at hload
          exact h id cart hload
      · intro id cart hload
        simp only [applyOp, createCart, hv, if_false] at hload
        exact h id cart hload
  | addItem cartID body =>
    rcases body with _ | req
    · exact h
    · by_cases hv : validAddItemRequest req = true
      · intro id cart hload
        simp only [applyOp, addItemToCart, hv, if_true] at hload
        cases hold : storeLoad s cartID with
        | none =>
          rw [hold] at hload
          exact h id cart hload
        | some oldCart =>
          rw [hold] at hload
          simp only at hload
          by_cases hid : id = cartID
          · subst hid
            rw [storeLoad_store_self] at hload
            cases hload
            have hinv := h id oldCart hold
            have hq : 1 ≤ req.quantity := by
              simp only [validAddItemRequest, Bool.and_eq_true, decide_eq_true_eq] at hv
              exact hv.1.2
            constructor
            · show (cartKeys (addItemToItems oldCart.items req.productID req.quantity)).Nodup
              rw [cartKeys_addItemToItems oldCart.items req.productID req.quantity hinv.1]
              by_cases hmem : req.productID ∈ cartKeys oldCart.items
              · rw [if_pos hmem]; exact hinv.1
              · rw [if_neg hmem]
                simp [List.nodup_append, hinv.1, hmem]
            · exact addItemToItems_quantity_ge_one oldCart.items req.productID req.quantity
                hq hinv.2
          · rw [storeLoad_store_other s cartID id _ hid] at hload
            exact h id cart hload
      · intro id cart hload
        simp only [applyOp, addItemToCart, hv, if_false] at hload
        exact h id cart hload

/-- Folding operations from an invariant store keeps the invariant. -/
theorem foldl_applyOp_preserves_inv (ops : List CartOp) (s : CartStore) (h : StoreInv s) :
    StoreInv (ops.foldl applyOp s) := by
  induction ops generalizing s with
  | nil => exact h
  | cons op rest ih => exact ih (applyOp s op) (applyOp_preserves_inv s op h)

/-- C6: Every cart reachable in the store through any sequence of CreateCart
and accepted AddItem operations has pairwise-distinct product_ids and every
line quantity at least 1. -/
theorem reachable_cart_invariant_C6 (ops : List CartOp) (id : String)
    (cart : ShoppingCart) (hload : storeLoad (runOps ops) id = some cart) :
    CartInvariant cart := by
  have hinit : StoreInv emptyStore := by
    intro i c hl
    simp [storeLoad, emptyStore] at hl
  exact foldl_applyOp_preserves_inv ops emptyStore hinit id cart hload

theorem reachable_cart_invariant_C6_witness :
    CartInvariant ⟨"c6", "alice", [⟨"P1", 2⟩, ⟨"P2", 3⟩], 0⟩ :=
  reachable_cart_invariant_C6
    [.create (some ⟨"alice"⟩) "c6" 0, .addItem "c6" (some ⟨"P1", 2⟩),
      .addItem "c6" (some ⟨"P2", 3⟩)]
    "c6" ⟨"c6", "alice", [⟨"P1", 2⟩, ⟨"P2", 3⟩], 0⟩ (by decide)

/-! ### Cumulative quantities -/

/-- One merge adds exactly the requested quantity to the product's line,
whether or not the line already existed. -/
theorem lineQty_addItemToItems (items : List CartItem) (pid : String) (q : Int) :
    lineQty (addItemToItems items pid q) pid = lineQty items pid + q := by
  induction items with
  | nil => simp [addItemToItems, lineQty]
  | cons it rest ih =>
    by_cases h : it.productID = pid
    · simp [addItemToItems, lineQty, h]
    · simp [addItemToItems, lineQty, h, ih]

/-- C10: The 1..10000 bound is per request only. For every sequence of
accepted AddItem calls on the same existing cart and product_id, the stored
line's quantity ends at its starting value plus the arithmetic sum of the
accepted request quantities — no cumulative cap is applied, so the stored
quantity can exceed 10000. -/
theorem runAdds_lineQty_C10 (qs : List Int) (s : CartStore) (cartID pid : String)
    (cart : ShoppingCart)
    (hload : storeLoad s cartID = some cart)
    (hpid : pid ≠ "")
    (hqs : ∀ q ∈ qs, 1 ≤ q ∧ q ≤ 10000) :
    ∃ cart', storeLoad (runAdds s cartID pid qs) cartID = some cart' ∧
      lineQty cart'.items pid = lineQty cart.items pid + qs.sum := by
  induction qs generalizing s cart with
  | nil => exact ⟨cart, hload, by simp⟩
  | cons q rest ih =>
    have hq := hqs q (List.mem_cons_self q rest)
    have hv : validAddItemRequest ⟨pid, q⟩ = true := by
      simp [validAddItemRequest, hpid, hq.1, hq.2]
    have hstep : (addItemToCart s cartID (some ⟨pid, q⟩)).2 =
        storeStore s cartID
          { cart with items := addItemToItems cart.items pid q } := by
      simp [addItemToCart, hv, hload]
    rw [show runAdds s cartID pid (q :: rest) =
        runAdds (addItemToCart s cartID (some ⟨pid, q⟩)).2 cartID pid rest from rfl, hstep]
    obtain ⟨cart', hload', hqty⟩ := ih
      (storeStore s cartID { cart with items := addItemToItems cart.items pid q })
      { cart with items := addItemToItems cart.items pid q }
      (storeLoad_store_self _ _ _)
      (fun x hx => hqs x (List.mem_cons_of_mem q hx))
    refine ⟨cart', hload', ?_⟩
    rw [hqty]
    show lineQty (addItemToItems cart.items pid q) pid + rest.sum =
      lineQty cart.items pid + (q :: rest).sum
    rw [lineQty_addItemToItems]
    simp [List.sum_cons]
    ring

theorem runAdds_lineQty_C10_witness :
    (∃ cart',
      storeLoad (runAdds (storeStore emptyStore "c10" ⟨"c10", "alice", [], 0⟩) "c10" "P1"
          [10000, 10000]) "c10" = some cart' ∧
      lineQty cart'.items "P1" =
        lineQty ([] : List CartItem) "P1" + ([10000, 10000] : List Int).sum) ∧
    lineQty ([] : List CartItem) "P1" + ([10000, 10000] : List Int).sum > 10000 :=
  ⟨runAdds_lineQty_C10 [10000, 10000] (storeStore emptyStore "c10" ⟨"c10", "alice", [], 0⟩)
      "c10" "P1" ⟨"c10", "alice", [], 0⟩ rfl (by decide) (by decide),
    by decide⟩

/-! ### Worker-pool counters under interleaving -/

/-- processOrder is exactly the sequence of its atomic updates run in
program order, tying the action model to the embedded worker code. -/
theorem processOrder_eq_runWActions (st : Stats) (o : WarehouseOrder) :
    processOrder st o = runWActions st (actionsOfOrder o) := by
  show processOrder st o =
    (o.items.map (fun it => WAction.incrProduct it.productID it.quantity)).foldl
      applyWAction { st with totalOrders := st.totalOrders + 1 }
  have key : ∀ (items : List CartItem) (st' : Stats),
      (items.map (fun it => WAction.incrProduct it.productID it.quantity)).foldl
          applyWAction st' =
        { st' with
            productQty :=
              items.foldl (fun m it => mapIncr m it.productID it.quantity) st'.productQty } := by
    intro items
    induction items with
    | nil => intro st'; rfl
    | cons it rest ih =>
      intro st'
      simp only [List.map_cons, List.foldl_cons]
      rw [ih]
      rfl
  rw [key]
  rfl

/-- Running a schedule adds one to totalOrders per incrTotal action. -/
theorem runWActions_totalOrders (acts : List WAction) (st : Stats) :
    (runWActions st acts).totalOrders = st.totalOrders + (acts.map totContrib).sum := by
  induction acts generalizing st with
  | nil => simp [runWActions]
  | cons a rest ih =>
    show (runWActions (applyWAction st a) rest).totalOrders = _
    rw [ih]
    cases a with
    | incrTotal => simp [applyWAction, totContrib]; ring
    | incrProduct p q => simp [applyWAction, totContrib]

/-- Running a schedule adds each incrProduct contribution to the map entry
it targets. -/
theorem runWActions_productQty (acts : List WAction) (st : Stats) (pid : String) :
    (runWActions st acts).productQty pid =
      st.productQty pid + (acts.map (qtyContrib pid)).sum := by
  induction acts generalizing st with
  | nil => simp [runWActions]
  | cons a rest ih =>
    show (runWActions (applyWAction st a) rest).productQty pid = _
    rw [ih]
    cases a with
    | incrTotal => simp [applyWAction, qtyContrib]
    | incrProduct p q =>
      simp only [applyWAction, qtyContrib, List.map_cons, List.sum_cons, mapIncr]
      by_cases h : pid = p
      · subst h
        simp
        ring
      · have h' : ¬p = pid := fun hh => h hh.symm
        simp only [if_neg h, if_neg h']
        ring

/-- The reference schedule holds exactly one incrTotal per order. -/
theorem allActions_totContrib (orders : List WarehouseOrder) :
    ((allActions orders).map totContrib).sum = (orders.length : Int) := by
  induction orders with
  | nil => rfl
  | cons o rest ih =>
    have hzero : ∀ (items : List CartItem),
        ((items.map (fun it => WAction.incrProduct it.productID it.quantity)).map
            totContrib).sum = 0 := by
      intro items
      induction items with
      | nil => rfl
      | cons it r ihr => simpa [totContrib] using ihr
    simp only [allActions, actionsOfOrder, List.map_append, List.sum_append, List.map_cons,
      List.sum_cons, totContrib, ih, hzero, List.length_cons]
    push_cast
    ring

/-- The reference schedule contributes each order's quantity of a product
exactly once. -/
theorem allActions_qtyContrib (orders : List WarehouseOrder) (pid : String) :
    ((allActions orders).map (qtyContrib pid)).sum = totalQty orders pid := by
  induction orders with
  | nil => rfl
  | cons o rest ih =>
    have horder : ((actionsOfOrder o).map (qtyContrib pid)).sum = orderQty o pid := by
      simp only [actionsOfOrder, List.map_cons, List.sum_cons, qtyContrib, List.map_map,
        orderQty]
      have : (qtyContrib pid ∘ fun it => WAction.incrProduct it.productID it.quantity) =
          fun (it : CartItem) => if it.productID = pid then it.quantity else 0 := by
        funext it
        simp [qtyContrib]
      rw [this]
      ring
    simp only [allActions, List.map_append, List.sum_append, horder, ih, totalQty,
      List.map_cons, List.sum_cons]

/-- C3: For every batch of fulfillment orders and every interleaving of the
workers' individually-atomic counter updates (any permutation of the atomic
updates the batch performs), once all updates have run — in particular once
all N messages are processed and acknowledged — total_orders equals exactly
N and every product's accumulated quantity equals the arithmetic sum of
that product's quantities across the batch. -/
theorem worker_pool_totals_C3 (orders : List WarehouseOrder) (sched : List WAction)
    (hperm : sched.Perm (allActions orders)) :
    (runWActions initStats sched).totalOrders = (orders.length : Int) ∧
    ∀ pid, (runWActions initStats sched).productQty pid = totalQty orders pid := by
  constructor
  · rw [runWActions_totalOrders]
    rw [(hperm.map totContrib).sum_eq, allActions_totContrib]
    simp [initStats]
  · intro pid
    rw [runWActions_productQty]
    rw [(hperm.map (qtyContrib pid)).sum_eq, allActions_qtyContrib]
    simp [initStats]

theorem worker_pool_totals_C3_witness :
    (runWActions initStats
        (allActions [⟨"o1", "c1", "alice", [⟨"P1", 2⟩], "t1"⟩,
          ⟨"o2", "c2", "bob", [⟨"P1", 3⟩, ⟨"P2", 4⟩], "t2"⟩])).totalOrders = 2 ∧
    (runWActions initStats
        (allActions [⟨"o1", "c1", "alice", [⟨"P1", 2⟩], "t1"⟩,
          ⟨"o2", "c2", "bob", [⟨"P1", 3⟩, ⟨"P2", 4⟩], "t2"⟩])).productQty "P1" = 5 :=
  ⟨(worker_pool_totals_C3
      [⟨"o1", "c1", "alice", [⟨"P1", 2⟩], "t1"⟩,
        ⟨"o2", "c2", "bob", [⟨"P1", 3⟩, ⟨"P2", 4⟩], "t2"⟩]
      (allActions [⟨"o1", "c1", "alice", [⟨"P1", 2⟩], "t1"⟩,
        ⟨"o2", "c2", "bob", [⟨"P1", 3⟩, ⟨"P2", 4⟩], "t2"⟩])
      (List.Perm.refl _)).1,
    by
      have h := (worker_pool_totals_C3
        [⟨"o1", "c1", "alice", [⟨"P1", 2⟩], "t1"⟩,
          ⟨"o2", "c2", "bob", [⟨"P1", 3⟩, ⟨"P2", 4⟩], "t2"⟩]
        (allActions [⟨"o1", "c1", "alice", [⟨"P1", 2⟩], "t1"⟩,
          ⟨"o2", "c2", "bob", [⟨"P1", 3⟩, ⟨"P2", 4⟩], "t2"⟩])
        (List.Perm.refl _)).2 "P1"
      simpa [totalQty, orderQty] using h⟩
